import Mathlib

/-!
Verification development for the Terraform Remote State Dashboard
(`dashboard.py`).

The resource-aggregation pipeline is shallowly embedded:

* JSON values parsed from the AWS CLI's stdout are modelled by `Json`.
* `run_aws_command` spawns a subprocess, so it is modelled by an oracle
  parameter `R : Oracle`: `R service action extra_args` is `some j` when the
  CLI exits 0 and its stdout parses as `j` (an empty stdout parses as the
  empty object, per `json.loads(result.stdout) if result.stdout else {}`),
  and `none` when the command times out, exits non-zero, or its output fails
  to parse (the function returns Python `None` in those cases).
* Each collector (`get_s3_buckets`, `get_dynamodb_tables`, `get_iam_users`,
  `get_key_pairs`, `get_instances`, `get_security_groups`) is a function of
  the oracle, translated statement by statement from the source.
* Python truthiness (`if not data`, `if versioning`, `name or "(unnamed)"`)
  is modelled by `pyTruthy`.
* `get_instances` is the one collector that can raise (it subscripts
  `tag["Key"]` / `tag["Value"]` instead of using `.get`), so it returns an
  `Option`; `none` models an uncaught `KeyError`/`TypeError`.

Modelling notes (places where CPython would raise an exception that no claim
exercises): calling `.get(k, d)` on a non-dict raises `AttributeError` and
iterating a non-list raises or iterates keys/characters; the embedding
returns the default / the empty list there, and all claims are settled on
dict/list-shaped data where the embedding and CPython agree. String-typed
fields are extracted with `jGetStr`, which returns the default when the
field's value is not a JSON string.
-/

/-- A parsed JSON value, as produced by `json.loads` on the AWS CLI output.
Numbers are modelled as integers (all numeric fields the dashboard reads are
integers). Objects are association lists; lookup takes the first binding,
matching Python dict semantics on well-formed (duplicate-free) objects. -/
inductive Json where
  | null
  | bool (b : Bool)
  | num (n : Int)
  | str (s : String)
  | arr (xs : List Json)
  | obj (kvs : List (String × Json))

/-- First binding for a key in an association list (Python dict lookup). -/
def lookupKV : List (String × Json) → String → Option Json
  | [], _ => none
  | (k', v) :: rest, k => if k' = k then some v else lookupKV rest k

/-- `j.find? k`: the value bound to key `k` when `j` is an object holding
`k`, otherwise `none`.  Models both `d[k]` (where `none` is a raised
`KeyError`/`TypeError`) and the key-present side of `d.get(k, default)`. -/
def Json.find? : Json → String → Option Json
  | .obj kvs, k => lookupKV kvs k
  | _, _ => none

/-- Python truthiness of a JSON value (`bool(x)` for the values `json.loads`
can produce): `None`, `False`, `0`, `""`, `[]` and `{}` are falsy. -/
def pyTruthy : Json → Bool
  | .null => false
  | .bool b => b
  | .num n => n != 0
  | .str s => !s.data.isEmpty
  | .arr xs => !xs.isEmpty
  | .obj kvs => !kvs.isEmpty

/-- `d.get(k, default)` for a string-valued field: the bound string, or the
default when the key is absent or bound to a non-string. -/
def jGetStr (j : Json) (k : String) (d : String) : String :=
  match j.find? k with
  | some (.str s) => s
  | _ => d

/-- `d.get(k, default)` for an integer-valued field. -/
def jGetInt (j : Json) (k : String) (d : Int) : Int :=
  match j.find? k with
  | some (.num n) => n
  | _ => d

/-- The string content of a JSON value expected to be a string (table names
from `TableNames`, CLI arguments); default for non-strings. -/
def jStrD : Json → String → String
  | .str s, _ => s
  | _, d => d

/-- `for x in d.get(k, []):` — the elements iterated over: the bound list,
or nothing when the key is absent or bound to a non-list. -/
def getArr (j : Json) (k : String) : List Json :=
  match j.find? k with
  | some (.arr xs) => xs
  | _ => []

/-- Python `str(x)` as used by f-string interpolation on a JSON value
(container reprs are not modelled; no claim renders a container). -/
def pyShow : Json → String
  | .null => "None"
  | .bool true => "True"
  | .bool false => "False"
  | .num n => toString n
  | .str s => s
  | .arr _ => ""
  | .obj _ => ""

/-- Python string slicing `s[:n]` (by code points). -/
def pyTake (s : String) (n : Nat) : String :=
  ⟨s.data.take n⟩

/-- `instances[0]['name'][:20]`-style slicing of a JSON value: slices the
string content (slicing a non-string raises `TypeError` in Python; no claim
exercises that). -/
def pyStrSlice (j : Json) (n : Nat) : String :=
  match j with
  | .str s => pyTake s n
  | _ => ""

/-- The behaviour of `run_aws_command`: `R service action extra_args` is the
parsed JSON on success and `none` on timeout / non-zero exit / parse
failure. -/
def Oracle : Type := String → String → List String → Option Json

/-! ## View records (the dicts each collector appends) -/

structure BucketView where
  name : String
  created : String
  versioning : String
deriving DecidableEq, Repr

structure TableView where
  name : String
  hash_key : String
  status : String
  item_count : Int
deriving DecidableEq, Repr

structure AccessKeyView where
  id : String
  status : String
deriving DecidableEq, Repr

structure UserView where
  name : String
  arn : String
  created : String
  access_keys : List AccessKeyView
  policies : List String
deriving DecidableEq, Repr

structure KeyPairView where
  name : String
  fingerprint : String
  type : String
deriving DecidableEq, Repr

/-- The instance dict. `name` is kept as a `Json` value because the source
assigns `name = tag["Value"]` without coercion, so a non-string tag value
flows into the record unchanged. -/
structure InstanceView where
  id : String
  name : Json
  type : String
  state : String
  public_ip : String
  private_ip : String
  key_name : String

structure SecurityGroupView where
  id : String
  name : String
  description : String
  ingress_rules : List String
deriving DecidableEq, Repr

/-! ## Collectors -/

/-- The versioning status computed for one bucket:
`versioning.get("Status", "Disabled") if versioning else "Unknown"`.
Note `if versioning` is Python truthiness: both `None` (command failed) and
`{}` (command succeeded with empty stdout) are falsy. -/
def bucketVersioning (R : Oracle) (name : String) : String :=
  match R "s3api" "get-bucket-versioning" ["--bucket", name] with
  | none => "Unknown"
  | some v => if pyTruthy v then jGetStr v "Status" "Disabled" else "Unknown"

/-- The loop body of `get_s3_buckets`. -/
def mkBucket (R : Oracle) (bucket : Json) : BucketView :=
  let name := jGetStr bucket "Name" ""
  { name := name
    created := jGetStr bucket "CreationDate" ""
    versioning := bucketVersioning R name }

/-- `get_s3_buckets`. -/
def get_s3_buckets (R : Oracle) : List BucketView :=
  match R "s3api" "list-buckets" [] with
  | none => []
  | some data =>
    if pyTruthy data then (getArr data "Buckets").map (mkBucket R) else []

/-- `attr.get("KeyType") == "HASH"` (true only for the JSON string). -/
def isHashAttr (attr : Json) : Bool :=
  match attr.find? "KeyType" with
  | some (.str s) => s = "HASH"
  | _ => false

/-- The `hash_key` loop of `get_dynamodb_tables`: iterate the key schema,
overwriting on every HASH entry (no break), starting from `""`. -/
def lastHash (ks : List Json) : String :=
  ks.foldl (fun acc attr =>
    if isHashAttr attr then jGetStr attr "AttributeName" "" else acc) ""

/-- The loop body of `get_dynamodb_tables` for one table name: describe the
table and build the record, or `none` when the describe call failed, was
falsy, or lacks a `"Table"` key (`if details and "Table" in details:` — in
that case nothing is appended and the table is dropped). -/
def describeTable (R : Oracle) (tn : Json) : Option TableView :=
  match R "dynamodb" "describe-table" ["--table-name", jStrD tn ""] with
  | none => none
  | some details =>
    if pyTruthy details then
      match details.find? "Table" with
      | some table =>
        some { name := jStrD tn ""
               hash_key := lastHash (getArr table "KeySchema")
               status := jGetStr table "TableStatus" "UNKNOWN"
               item_count := jGetInt table "ItemCount" 0 }
      | none => none
    else none

/-- `get_dynamodb_tables`. -/
def get_dynamodb_tables (R : Oracle) : List TableView :=
  match R "dynamodb" "list-tables" [] with
  | none => []
  | some data =>
    if pyTruthy data then
      (getArr data "TableNames").filterMap (describeTable R)
    else []

/-- The access-key sub-query of `get_iam_users` for one user: `[]` when the
call failed or returned a falsy value (`if keys_data:`). -/
def userAccessKeys (R : Oracle) (name : String) : List AccessKeyView :=
  match R "iam" "list-access-keys" ["--user-name", name] with
  | none => []
  | some kd =>
    if pyTruthy kd then
      (getArr kd "AccessKeyMetadata").map (fun key =>
        { id := jGetStr key "AccessKeyId" ""
          status := jGetStr key "Status" "Unknown" })
    else []

/-- The attached-policy sub-query of `get_iam_users` for one user. -/
def userPolicies (R : Oracle) (name : String) : List String :=
  match R "iam" "list-attached-user-policies" ["--user-name", name] with
  | none => []
  | some pd =>
    if pyTruthy pd then
      (getArr pd "AttachedPolicies").map (fun policy =>
        jGetStr policy "PolicyName" "")
    else []

/-- The loop body of `get_iam_users`. -/
def mkUser (R : Oracle) (user : Json) : UserView :=
  let name := jGetStr user "UserName" ""
  { name := name
    arn := jGetStr user "Arn" ""
    created := jGetStr user "CreateDate" ""
    access_keys := userAccessKeys R name
    policies := userPolicies R name }

/-- `get_iam_users`. -/
def get_iam_users (R : Oracle) : List UserView :=
  match R "iam" "list-users" [] with
  | none => []
  | some data =>
    if pyTruthy data then (getArr data "Users").map (mkUser R) else []

/-- The loop body of `get_key_pairs`:
`key.get("KeyFingerprint", "")[:40] + "..."` and
`key.get("KeyType", "rsa")`. -/
def mkKeyPair (key : Json) : KeyPairView :=
  { name := jGetStr key "KeyName" ""
    fingerprint := pyTake (jGetStr key "KeyFingerprint" "") 40 ++ "..."
    type := jGetStr key "KeyType" "rsa" }

/-- `get_key_pairs`. -/
def get_key_pairs (R : Oracle) : List KeyPairView :=
  match R "ec2" "describe-key-pairs" [] with
  | none => []
  | some data =>
    if pyTruthy data then (getArr data "KeyPairs").map mkKeyPair else []

/-- The name-resolution loop of `get_instances`:

```
name = ""
for tag in instance.get("Tags", []):
    if tag["Key"] == "Name":
        name = tag["Value"]
        break
```

`some v` is the value of `name` after the loop; `none` models the raised
`KeyError` when a tag before (and including) the first `"Name"` tag lacks a
`"Key"` field (or a non-dict tag is subscripted), or the first `"Name"` tag
lacks a `"Value"` field. `tag["Key"] == "Name"` holds only when the value is
the JSON string `"Name"`. -/
def findName : List Json → Option Json
  | [] => some (.str "")
  | tag :: rest =>
    match tag.find? "Key" with
    | none => none
    | some (.str s) =>
      if s = "Name" then tag.find? "Value" else findName rest
    | some _ => findName rest

/-- The loop body of `get_instances` for one instance dict.
`name or "(unnamed)"` keeps `name` only when it is truthy. -/
def mkInstance (inst : Json) : Option InstanceView := do
  let nm ← findName (getArr inst "Tags")
  pure { id := jGetStr inst "InstanceId" ""
         name := if pyTruthy nm then nm else .str "(unnamed)"
         type := jGetStr inst "InstanceType" ""
         state := jGetStr ((inst.find? "State").getD (.obj [])) "Name" "unknown"
         public_ip := jGetStr inst "PublicIpAddress" ""
         private_ip := jGetStr inst "PrivateIpAddress" ""
         key_name := jGetStr inst "KeyName" "" }

/-- `get_instances`. `none` models an uncaught exception from the tag
loop; `some instances` is the returned list, flattened across
reservations in order. -/
def get_instances (R : Oracle) : Option (List InstanceView) :=
  match R "ec2" "describe-instances" [] with
  | none => some []
  | some data =>
    if pyTruthy data then do
      let lss ← (getArr data "Reservations").mapM (fun res =>
        (getArr res "Instances").mapM mkInstance)
      pure lss.flatten
    else some []

/-- `sg.get("GroupName") == "default"` (true only for the JSON string). -/
def isDefaultSG (sg : Json) : Bool :=
  match sg.find? "GroupName" with
  | some (.str s) => s = "default"
  | _ => false

/-- `rule.get("FromPort", "all")` as interpolated into the summary. -/
def portOf (rule : Json) : String :=
  match rule.find? "FromPort" with
  | none => "all"
  | some j => pyShow j

/-- `rule.get("IpRanges", [{}])[0].get("CidrIp", "") if rule.get("IpRanges")
else ""`: the first range's CIDR when `IpRanges` is a truthy list, else the
empty string. -/
def cidrOf (rule : Json) : String :=
  match rule.find? "IpRanges" with
  | some (.arr (r0 :: _)) => jGetStr r0 "CidrIp" ""
  | _ => ""

/-- One ingress-rule summary: `f"{port} from {cidr or 'any'}"`. -/
def summarizeRule (rule : Json) : String :=
  let port := portOf rule
  let cidr := cidrOf rule
  port ++ " from " ++ (if cidr = "" then "any" else cidr)

/-- The loop body of `get_security_groups` for a non-default group. -/
def mkSG (sg : Json) : SecurityGroupView :=
  { id := jGetStr sg "GroupId" ""
    name := jGetStr sg "GroupName" ""
    description := jGetStr sg "Description" ""
    ingress_rules := (getArr sg "IpPermissions").map summarizeRule }

/-- `get_security_groups` (the `continue` on `default` is a filter). -/
def get_security_groups (R : Oracle) : List SecurityGroupView :=
  match R "ec2" "describe-security-groups" [] with
  | none => []
  | some data =>
    if pyTruthy data then
      ((getArr data "SecurityGroups").filter (fun sg => !isDefaultSG sg)).map mkSG
    else []

/-- The snapshot `generate_html` renders: the six collector outputs plus the
backend-mode flag (`USE_AWS`). -/
structure Snapshot where
  s3_buckets : List BucketView
  dynamodb_tables : List TableView
  iam_users : List UserView
  key_pairs : List KeyPairView
  instances : List InstanceView
  security_groups : List SecurityGroupView
  use_aws : Bool

/-! ## Renderer

`generate_html` builds the page by successive `html += ...` statements.  The
embedding records the appended pieces in order as a list of chunks
(`htmlChunks`) and the final page is their concatenation
(`renderSnapshot`).  Each f-string is the concatenation of its literal
segments and the interpolated values; the literal segments below are
transcribed verbatim from the source (with `{{`/`}}` read as literal
braces). -/

def hdA : String :=
  "\n<html lang=\"en\">\n<head>\n    <meta charset=\"UTF-8\">\n    <meta name=\"viewport\" content=\"width=device-width, initial-scale=1.0\">\n    <title>Terraform Remote State Dashboard - "

def hdB : String :=
  "</title>\n    <style>\n        * \x7b box-sizing: border-box; margin: 0; padding: 0; \x7d\n        body \x7b\n            font-family: -apple-system, BlinkMacSystemFont, \x27Segoe UI\x27, Roboto, sans-serif;\n            background: linear-gradient(135deg, #1a1a2e 0%, #16213e 100%);\n            min-height: 100vh;\n            color: #fff;\n            padding: 20px;\n        \x7d\n\n        .header \x7b\n            text-align: center;\n            padding: 30px;\n            margin-bottom: 30px;\n        \x7d\n        .header h1 \x7b\n            font-size: 2.5em;\n            margin-bottom: 10px;\n            background: linear-gradient(90deg, #00d9ff, #ff6b6b);\n            -webkit-background-clip: text;\n            -webkit-text-fill-color: transparent;\n        \x7d\n        .header p \x7b color: #888; font-size: 1.1em; \x7d\n        .header .mode \x7b\n            display: inline-block;\n            background: "

def hdC : String :=
  ";\n            color: #1a1a2e;\n            padding: 5px 15px;\n            border-radius: 20px;\n            font-size: 0.9em;\n            margin-top: 10px;\n        \x7d\n\n        .stats \x7b\n            display: flex;\n            justify-content: center;\n            gap: 20px;\n            margin-bottom: 40px;\n            flex-wrap: wrap;\n        \x7d\n        .stat-card \x7b\n            background: rgba(255,255,255,0.1);\n            border-radius: 15px;\n            padding: 20px 40px;\n            text-align: center;\n            backdrop-filter: blur(10px);\n            border: 1px solid rgba(255,255,255,0.1);\n        \x7d\n        .stat-card .number \x7b\n            font-size: 3em;\n            font-weight: bold;\n            color: #00d9ff;\n        \x7d\n        .stat-card .label \x7b color: #888; margin-top: 5px; \x7d\n\n        .section \x7b\n            background: rgba(255,255,255,0.05);\n            border-radius: 15px;\n            padding: 25px;\n            margin-bottom: 25px;\n            border: 1px solid rgba(255,255,255,0.1);\n            cursor: pointer;\n            transition: transform 0.2s, box-shadow 0.2s;\n        \x7d\n        .section:hover \x7b\n            transform: translateY(-2px);\n            box-shadow: 0 8px 25px rgba(0,217,255,0.2);\n        \x7d\n        .section h2 \x7b\n            color: #00d9ff;\n            margin-bottom: 20px;\n            display: flex;\n            align-items: center;\n            gap: 10px;\n        \x7d\n        .section h2 .icon \x7b font-size: 1.5em; \x7d\n\n        .resource-grid \x7b\n            display: grid;\n            grid-template-columns: repeat(auto-fill, minmax(350px, 1fr));\n            gap: 15px;\n        \x7d\n        .resource-card \x7b\n            background: rgba(0,0,0,0.3);\n            border-radius: 10px;\n            padding: 20px;\n            border-left: 4px solid #00d9ff;\n        \x7d\n        .resource-card.s3 \x7b border-left-color: #ff6b6b; \x7d\n        .resource-card.dynamodb \x7b border-left-color: #feca57; \x7d\n        .resource-card.iam \x7b border-left-color: #45b7d1; \x7d\n        .resource-card.keypair \x7b border-left-color: #96ceb4; \x7d\n        .resource-card.ec2 \x7b border-left-color: #4ecdc4; \x7d\n        .resource-card.sg \x7b border-left-color: #ff9ff3; \x7d\n\n        .resource-card h3 \x7b\n            color: #fff;\n            margin-bottom: 10px;\n            font-size: 1.1em;\n            word-break: break-all;\n        \x7d\n        .resource-card .id \x7b\n            font-family: monospace;\n            color: #888;\n            font-size: 0.85em;\n            word-break: break-all;\n        \x7d\n        .resource-card .details \x7b\n            margin-top: 10px;\n            font-size: 0.9em;\n        \x7d\n        .resource-card .details span \x7b\n            display: inline-block;\n            background: rgba(255,255,255,0.1);\n            padding: 3px 8px;\n            border-radius: 4px;\n            margin: 2px;\n        \x7d\n\n        .status-running \x7b color: #00ff88; \x7d\n        .status-active \x7b color: #00ff88; \x7d\n        .status-Active \x7b color: #00ff88; \x7d\n        .status-ACTIVE \x7b color: #00ff88; \x7d\n        .status-enabled \x7b color: #00ff88; \x7d\n        .status-Enabled \x7b color: #00ff88; \x7d\n\n        .empty-state \x7b\n            text-align: center;\n            color: #666;\n            padding: 40px;\n        \x7d\n\n        .architecture \x7b\n            background: rgba(0,0,0,0.4);\n            border-radius: 15px;\n            padding: 30px;\n            margin-bottom: 25px;\n            font-family: monospace;\n            white-space: pre;\n            overflow-x: auto;\n            line-height: 1.8;\n            color: #00d9ff;\n            font-size: 14px;\n        \x7d\n\n        .refresh-btn \x7b\n            position: fixed;\n            bottom: 30px;\n            right: 30px;\n            background: #00d9ff;\n            color: #1a1a2e;\n            border: none;\n            padding: 15px 30px;\n            border-radius: 50px;\n            font-size: 1em;\n            cursor: pointer;\n            box-shadow: 0 4px 15px rgba(0,217,255,0.3);\n        \x7d\n        .refresh-btn:hover \x7b background: #00ff88; \x7d\n\n        /* Modal Styles */\n        .modal \x7b\n            display: none;\n            position: fixed;\n            z-index: 1000;\n            left: 0;\n            top: 0;\n            width: 100%;\n            height: 100%;\n            background-color: rgba(0,0,0,0.85);\n            backdrop-filter: blur(5px);\n        \x7d\n        .modal.active \x7b display: flex; align-items: center; justify-content: center; \x7d\n        .modal-content \x7b\n            background: linear-gradient(135deg, #1a1a2e, #16213e);\n            border-radius: 16px;\n            padding: 30px;\n            max-width: 700px;\n            max-height: 80vh;\n            overflow-y: auto;\n            position: relative;\n            box-shadow: 0 20px 60px rgba(0,0,0,0.5);\n            border: 1px solid rgba(0,217,255,0.2);\n        \x7d\n        .modal-close \x7b\n            position: absolute;\n            top: 15px;\n            right: 20px;\n            font-size: 28px;\n            cursor: pointer;\n            color: #888;\n            transition: color 0.2s;\n        \x7d\n        .modal-close:hover \x7b color: #fff; \x7d\n        .modal-title \x7b\n            font-size: 1.8em;\n            margin-bottom: 20px;\n            color: #00d9ff;\n        \x7d\n        .modal-section \x7b\n            margin-bottom: 20px;\n        \x7d\n        .modal-section h4 \x7b\n            color: #00ff88;\n            margin-bottom: 10px;\n        \x7d\n        .modal-section p \x7b\n            line-height: 1.6;\n            color: #ccc;\n        \x7d\n        .modal-section ul \x7b\n            margin-left: 20px;\n            line-height: 1.8;\n            color: #ccc;\n        \x7d\n        .modal-section code \x7b\n            background: rgba(0,217,255,0.2);\n            padding: 2px 8px;\n            border-radius: 4px;\n            font-family: monospace;\n            color: #00d9ff;\n        \x7d\n        .modal-terraform \x7b\n            background: rgba(0,0,0,0.4);\n            border-radius: 8px;\n            padding: 15px;\n            font-family: monospace;\n            font-size: 0.85em;\n            color: #feca57;\n            margin-top: 10px;\n            white-space: pre-wrap;\n        \x7d\n        .modal-example \x7b\n            background: rgba(0,217,255,0.1);\n            border-left: 4px solid #00d9ff;\n            padding: 15px;\n            border-radius: 0 8px 8px 0;\n            margin-top: 15px;\n        \x7d\n        .modal-example strong \x7b color: #00d9ff; \x7d\n    </style>\n</head>\n<body>\n    <div class=\"header\">\n        <h1>Terraform Remote State Dashboard</h1>\n        <p>S3 Backend, IAM, and Compute Resources</p>\n        <span class=\"mode\">"

def hdD : String :=
  "</span>\n    </div>\n\n    <div class=\"stats\">\n        <div class=\"stat-card\">\n            <div class=\"number\">"

def hdE : String :=
  "</div>\n            <div class=\"label\">S3 Buckets</div>\n        </div>\n        <div class=\"stat-card\">\n            <div class=\"number\">"

def hdF : String :=
  "</div>\n            <div class=\"label\">DynamoDB Tables</div>\n        </div>\n        <div class=\"stat-card\">\n            <div class=\"number\">"

def hdG : String :=
  "</div>\n            <div class=\"label\">IAM Users</div>\n        </div>\n        <div class=\"stat-card\">\n            <div class=\"number\">"

def hdH : String :=
  "</div>\n            <div class=\"label\">EC2 Instances</div>\n        </div>\n    </div>\n"

def arA : String :=
  "\n    <div class=\"architecture\">\n                    TERRAFORM REMOTE STATE ARCHITECTURE\n                    ===================================\n\n    +----------------------+          +----------------------+\n    |   Your Computer      |          |   AWS / LocalStack   |\n    |                      |          |                      |\n    |  terraform apply ----+--------->|  S3 Bucket           |\n    |                      |          |  "

def arB : String :=
  " |\n    |  Stores state in S3  |          |  (State Storage)     |\n    |                      |          +----------------------+\n    |                      |                    |\n    |                      |          +----------------------+\n    |  Acquires lock ----->|--------->|  DynamoDB Table      |\n    |                      |          |  "

def arC : String :=
  "|\n    |  (Before changes)    |          |  (State Locking)     |\n    |                      |          +----------------------+\n    +----------------------+\n                                      +----------------------+\n                                      |  IAM User + Keys     |\n                                      |  (Access Credentials)|\n                                      +----------------------+\n                                               |\n                                      +--------v-------------+\n                                      |  "

def arD : String :=
  "|\n                                      |  + SSH Key Pair      |\n                                      |  + Security Group    |\n                                      +----------------------+\n    </div>\n"

def s3OpenL : String :=
  "\n    <div class=\"section\" onclick=\"showModal(\x27s3\x27)\">\n        <h2><span class=\"icon\">ü™£</span> S3 Buckets (State Storage) <span style=\"font-size:0.5em;color:#888;margin-left:10px;\">Click to learn more</span></h2>\n        <div class=\"resource-grid\">\n"

def ddbOpenL : String :=
  "\n    <div class=\"section\" onclick=\"showModal(\x27dynamodb\x27)\">\n        <h2><span class=\"icon\">üóÑÔ∏è</span> DynamoDB Tables (State Locking) <span style=\"font-size:0.5em;color:#888;margin-left:10px;\">Click to learn more</span></h2>\n        <div class=\"resource-grid\">\n"

def iamOpenL : String :=
  "\n    <div class=\"section\" onclick=\"showModal(\x27iam\x27)\">\n        <h2><span class=\"icon\">üë§</span> IAM Users & Access Keys <span style=\"font-size:0.5em;color:#888;margin-left:10px;\">Click to learn more</span></h2>\n        <div class=\"resource-grid\">\n"

def kpOpenL : String :=
  "\n    <div class=\"section\" onclick=\"showModal(\x27keypair\x27)\">\n        <h2><span class=\"icon\">üîë</span> SSH Key Pairs <span style=\"font-size:0.5em;color:#888;margin-left:10px;\">Click to learn more</span></h2>\n        <div class=\"resource-grid\">\n"

def ec2OpenL : String :=
  "\n    <div class=\"section\" onclick=\"showModal(\x27ec2\x27)\">\n        <h2><span class=\"icon\">üíª</span> EC2 Instances <span style=\"font-size:0.5em;color:#888;margin-left:10px;\">Click to learn more</span></h2>\n        <div class=\"resource-grid\">\n"

def sgOpenL : String :=
  "\n    <div class=\"section\" onclick=\"showModal(\x27sg\x27)\">\n        <h2><span class=\"icon\">üîí</span> Security Groups <span style=\"font-size:0.5em;color:#888;margin-left:10px;\">Click to learn more</span></h2>\n        <div class=\"resource-grid\">\n"

def s3CardA : String :=
  "\n            <div class=\"resource-card s3\">\n                <h3>"

def s3CardB : String :=
  "</h3>\n                <div class=\"details\">\n                    <span class=\"status-"

def s3CardC : String :=
  "\">Versioning: "

def s3CardD : String :=
  "</span>\n                </div>\n            </div>\n"

def ddbCardA : String :=
  "\n            <div class=\"resource-card dynamodb\">\n                <h3>"

def ddbCardB : String :=
  "</h3>\n                <div class=\"details\">\n                    <span>Hash Key: "

def ddbCardC : String :=
  "</span>\n                    <span class=\"status-"

def ddbCardD : String :=
  "\">"

def ddbCardE : String :=
  "</span>\n                </div>\n            </div>\n"

def keysSpanA : String :=
  "<span class=\x27status-"

def keysSpanB : String :=
  "\x27>"

def keysSpanC : String :=
  "...</span> "

def iamCardA : String :=
  "\n            <div class=\"resource-card iam\">\n                <h3>"

def iamCardB : String :=
  "</h3>\n                <div class=\"id\">"

def iamCardC : String :=
  "</div>\n                <div class=\"details\">\n                    <div>Access Keys: "

def iamCardD : String :=
  "</div>\n                    <div>Policies: "

def iamCardE : String :=
  "</div>\n                </div>\n            </div>\n"

def kpCardA : String :=
  "\n            <div class=\"resource-card keypair\">\n                <h3>"

def kpCardB : String :=
  "</h3>\n                <div class=\"id\">"

def kpCardC : String :=
  "</div>\n                <div class=\"details\">\n                    <span>Type: "

def kpCardD : String :=
  "</span>\n                </div>\n            </div>\n"

def ec2CardA : String :=
  "\n            <div class=\"resource-card ec2\">\n                <h3>"

def ec2CardB : String :=
  "</h3>\n                <div class=\"id\">"

def ec2CardC : String :=
  "</div>\n                <div class=\"details\">\n                    <span>"

def ec2CardD : String :=
  "</span>\n                    <span class=\"status-"

def ec2CardE : String :=
  "\">"

def ec2CardF : String :=
  "</span>\n                    <span>IP: "

def ec2CardG : String :=
  "</span>\n                    <span>Key: "

def ec2CardH : String :=
  "</span>\n                </div>\n            </div>\n"

def sgCardA : String :=
  "\n            <div class=\"resource-card sg\">\n                <h3>"

def sgCardB : String :=
  "</h3>\n                <div class=\"id\">"

def sgCardC : String :=
  "</div>\n                <div class=\"details\">\n                    <div>"

def sgCardD : String :=
  "</div>\n                </div>\n            </div>\n"

def emptyS3 : String :=
  "<div class=\"empty-state\">No S3 buckets found. Run terraform apply in the backend/ folder!</div>"

def emptyDdb : String :=
  "<div class=\"empty-state\">No DynamoDB tables found. Run terraform apply in the backend/ folder!</div>"

def emptyIam : String :=
  "<div class=\"empty-state\">No IAM users found. Run terraform apply in the iam/ folder!</div>"

def emptyKp : String :=
  "<div class=\"empty-state\">No SSH key pairs found. Run terraform apply in the compute/ folder!</div>"

def emptyEc2 : String :=
  "<div class=\"empty-state\">No EC2 instances found. Run terraform apply in the compute/ folder!</div>"

def emptySg : String :=
  "<div class=\"empty-state\">No security groups found (besides default)</div>"

def sectCloseL : String :=
  "\n        </div>\n    </div>\n"

def footerBodyL : String :=
  "\n        </div>\n    </div>\n\n    <button class=\"refresh-btn\" onclick=\"location.reload()\">üîÑ Refresh</button>\n\n    <!-- Modal Container -->\n    <div id=\"modal\" class=\"modal\" onclick=\"if(event.target===this)closeModal()\">\n        <div class=\"modal-content\">\n            <span class=\"modal-close\" onclick=\"closeModal()\">&times;</span>\n            <div id=\"modal-body\"></div>\n        </div>\n    </div>\n\n    <script>\n        const explanations = \x7b\n            s3: \x7b\n                title: \x27ü™£ S3 Backend for Terraform State\x27,\n                content: \x60\n                    <div class=\"modal-section\">\n                        <h4>What is Terraform State?</h4>\n                        <p>Terraform keeps track of all resources it manages in a \"state file\". This file maps your configuration to real-world resources and stores metadata like resource IDs.</p>\n                    </div>\n                    <div class=\"modal-section\">\n                        <h4>Why Store State in S3?</h4>\n                        <ul>\n                            <li><strong>Team Collaboration</strong> - Everyone uses the same state</li>\n                            <li><strong>Durability</strong> - S3 has 99.999999999% durability</li>\n                            <li><strong>Versioning</strong> - Roll back to previous states</li>\n                            <li><strong>Encryption</strong> - Protect sensitive data</li>\n                        </ul>\n                    </div>\n                    <div class=\"modal-section\">\n                        <h4>Terraform Example</h4>\n                        <div class=\"modal-terraform\">terraform \x7b\n  backend \"s3\" \x7b\n    bucket         = \"my-terraform-state\"\n    key            = \"project/terraform.tfstate\"\n    region         = \"us-east-1\"\n    dynamodb_table = \"terraform-locks\"\n    encrypt        = true\n  \x7d\n\x7d</div>\n                    </div>\n                    <div class=\"modal-example\">\n                        <strong>Important:</strong> Always enable versioning and encryption on your state bucket. State files often contain sensitive data like passwords and API keys.\n                    </div>\n                \x60\n            \x7d,\n            dynamodb: \x7b\n                title: \x27üóÑÔ∏è DynamoDB for State Locking\x27,\n                content: \x60\n                    <div class=\"modal-section\">\n                        <h4>Why State Locking?</h4>\n                        <p>Without locking, two people running terraform apply at the same time could corrupt the state file. DynamoDB provides distributed locking to prevent this.</p>\n                    </div>\n                    <div class=\"modal-section\">\n                        <h4>How It Works</h4>\n                        <ul>\n                            <li>Before any write operation, Terraform acquires a lock</li>\n                            <li>The lock is stored as an item in DynamoDB</li>\n                            <li>Other operations wait until the lock is released</li>\n                            <li>Lock is automatically released after operation completes</li>\n                        </ul>\n                    </div>\n                    <div class=\"modal-section\">\n                        <h4>Terraform Example</h4>\n                        <div class=\"modal-terraform\">resource \"aws_dynamodb_table\" \"terraform_locks\" \x7b\n  name         = \"terraform-locks\"\n  billing_mode = \"PAY_PER_REQUEST\"\n  hash_key     = \"LockID\"  # Must be exactly \"LockID\"\n\n  attribute \x7b\n    name = \"LockID\"\n    type = \"S\"\n  \x7d\n\x7d</div>\n                    </div>\n                    <div class=\"modal-example\">\n                        <strong>Critical:</strong> The hash key MUST be named exactly \"LockID\" (case-sensitive). Terraform expects this specific name.\n                    </div>\n                \x60\n            \x7d,\n            iam: \x7b\n                title: \x27üë§ IAM Users & Access Keys\x27,\n                content: \x60\n                    <div class=\"modal-section\">\n                        <h4>What are IAM Users?</h4>\n                        <p>IAM Users are identities in AWS that can authenticate and be authorized to use AWS services. Each user has credentials (password or access keys) to access AWS.</p>\n                    </div>\n                    <div class=\"modal-section\">\n                        <h4>Access Keys</h4>\n                        <ul>\n                            <li><strong>Access Key ID</strong> - Like a username (safe to share)</li>\n                            <li><strong>Secret Access Key</strong> - Like a password (KEEP SECRET!)</li>\n                            <li>Used for programmatic access (CLI, SDK, Terraform)</li>\n                            <li>Can be rotated without changing the user</li>\n                        </ul>\n                    </div>\n                    <div class=\"modal-section\">\n                        <h4>Terraform Example</h4>\n                        <div class=\"modal-terraform\">resource \"aws_iam_user\" \"terraform\" \x7b\n  name = \"terraform-user\"\n\x7d\n\nresource \"aws_iam_access_key\" \"terraform\" \x7b\n  user = aws_iam_user.terraform.name\n\x7d\n\noutput \"secret_access_key\" \x7b\n  value     = aws_iam_access_key.terraform.secret\n  sensitive = true  # Don\x27t show in logs!\n\x7d</div>\n                    </div>\n                    <div class=\"modal-example\">\n                        <strong>Security Best Practice:</strong> Never commit access keys to git! Use environment variables or AWS profiles. Rotate keys regularly.\n                    </div>\n                \x60\n            \x7d,\n            keypair: \x7b\n                title: \x27üîë SSH Key Pairs\x27,\n                content: \x60\n                    <div class=\"modal-section\">\n                        <h4>What are SSH Key Pairs?</h4>\n                        <p>SSH key pairs provide secure access to EC2 instances. They use public-key cryptography: AWS stores the public key, you keep the private key.</p>\n                    </div>\n                    <div class=\"modal-section\">\n                        <h4>How They Work</h4>\n                        <ul>\n                            <li><strong>Public Key</strong> - Stored on the EC2 instance</li>\n                            <li><strong>Private Key</strong> - Stored on your computer (.pem file)</li>\n                            <li>Only the private key holder can log in</li>\n                            <li>Much more secure than passwords</li>\n                        </ul>\n                    </div>\n                    <div class=\"modal-section\">\n                        <h4>Terraform Example</h4>\n                        <div class=\"modal-terraform\">resource \"tls_private_key\" \"ssh\" \x7b\n  algorithm = \"RSA\"\n  rsa_bits  = 4096\n\x7d\n\nresource \"aws_key_pair\" \"deployer\" \x7b\n  key_name   = \"my-key\"\n  public_key = tls_private_key.ssh.public_key_openssh\n\x7d\n\nresource \"local_file\" \"private_key\" \x7b\n  content         = tls_private_key.ssh.private_key_pem\n  filename        = \"private-key.pem\"\n  file_permission = \"0400\"\n\x7d</div>\n                    </div>\n                    <div class=\"modal-example\">\n                        <strong>Usage:</strong> <code>ssh -i private-key.pem ec2-user@IP_ADDRESS</code>\n                    </div>\n                \x60\n            \x7d,\n            ec2: \x7b\n                title: \x27üíª EC2 Instances\x27,\n                content: \x60\n                    <div class=\"modal-section\">\n                        <h4>What is EC2?</h4>\n                        <p>EC2 (Elastic Compute Cloud) provides virtual servers in the cloud. You can launch instances, install software, and run applications - like physical servers but on-demand.</p>\n                    </div>\n                    <div class=\"modal-section\">\n                        <h4>Key Components</h4>\n                        <ul>\n                            <li><strong>AMI</strong> - The operating system image</li>\n                            <li><strong>Instance Type</strong> - CPU, memory, network (t2.micro is free tier)</li>\n                            <li><strong>Key Pair</strong> - SSH access credentials</li>\n                            <li><strong>Security Group</strong> - Firewall rules</li>\n                        </ul>\n                    </div>\n                    <div class=\"modal-section\">\n                        <h4>Terraform Example</h4>\n                        <div class=\"modal-terraform\">data \"aws_ami\" \"amazon_linux\" \x7b\n  most_recent = true\n  owners      = [\"amazon\"]\n  filter \x7b\n    name   = \"name\"\n    values = [\"amzn2-ami-hvm-*-x86_64-gp2\"]\n  \x7d\n\x7d\n\nresource \"aws_instance\" \"web\" \x7b\n  ami                    = data.aws_ami.amazon_linux.id\n  instance_type          = \"t2.micro\"\n  key_name               = aws_key_pair.deployer.key_name\n  vpc_security_group_ids = [aws_security_group.ssh.id]\n\x7d</div>\n                    </div>\n                \x60\n            \x7d,\n            sg: \x7b\n                title: \x27üîí Security Groups\x27,\n                content: \x60\n                    <div class=\"modal-section\">\n                        <h4>What is a Security Group?</h4>\n                        <p>A Security Group acts as a virtual firewall for your EC2 instances. It controls inbound and outbound traffic at the instance level.</p>\n                    </div>\n                    <div class=\"modal-section\">\n                        <h4>Key Rules</h4>\n                        <ul>\n                            <li><strong>Default DENY</strong> - All inbound traffic blocked by default</li>\n                            <li><strong>Stateful</strong> - Return traffic automatically allowed</li>\n                            <li><strong>Port 22</strong> - SSH access</li>\n                            <li><strong>0.0.0.0/0</strong> - Open to all IPs (use with caution!)</li>\n                        </ul>\n                    </div>\n                    <div class=\"modal-section\">\n                        <h4>Terraform Example</h4>\n                        <div class=\"modal-terraform\">resource \"aws_security_group\" \"ssh\" \x7b\n  name        = \"allow-ssh\"\n  description = \"Allow SSH inbound\"\n\n  ingress \x7b\n    from_port   = 22\n    to_port     = 22\n    protocol    = \"tcp\"\n    cidr_blocks = [\"YOUR_IP/32\"]  # Restrict to your IP!\n  \x7d\n\n  egress \x7b\n    from_port   = 0\n    to_port     = 0\n    protocol    = \"-1\"\n    cidr_blocks = [\"0.0.0.0/0\"]\n  \x7d\n\x7d</div>\n                    </div>\n                    <div class=\"modal-example\">\n                        <strong>Security Best Practice:</strong> Never open port 22 to 0.0.0.0/0 in production. Always restrict SSH access to specific IP addresses.\n                    </div>\n                \x60\n            \x7d\n        \x7d;\n\n        function showModal(type) \x7b\n            const modal = document.getElementById(\x27modal\x27);\n            const body = document.getElementById(\x27modal-body\x27);\n            const data = explanations[type];\n            if (data) \x7b\n                body.innerHTML = \x27<div class=\"modal-title\">\x27 + data.title + \x27</div>\x27 + data.content;\n                modal.classList.add(\x27active\x27);\n            \x7d\n        \x7d\n\n        function closeModal() \x7b\n            document.getElementById(\x27modal\x27).classList.remove(\x27active\x27);\n        \x7d\n\n        document.addEventListener(\x27keydown\x27, (e) => \x7b\n            if (e.key === \x27Escape\x27) closeModal();\n        \x7d);\n    </script>\n</body>\n"

/-- Python `f"{s:<w}"`: left-justify `s` to width `w` with spaces (no
truncation). -/
def padTo (w : Nat) (s : String) : String :=
  s ++ ⟨List.replicate (w - s.data.length) ' '⟩

/-- `s3_buckets[0]["name"][:30] if s3_buckets else "terraform-state-bucket"`. -/
def bucketNameOf (s : Snapshot) : String :=
  match s.s3_buckets with
  | [] => "terraform-state-bucket"
  | b :: _ => pyTake b.name 30

/-- `dynamodb_tables[0]["name"][:25] if dynamodb_tables else "terraform-locks"`. -/
def tableNameOf (s : Snapshot) : String :=
  match s.dynamodb_tables with
  | [] => "terraform-locks"
  | t :: _ => pyTake t.name 25

/-- `f"EC2: {instances[0]['name'][:20]}" if instances else "EC2: (not created yet)"`. -/
def instInfoOf (s : Snapshot) : String :=
  match s.instances with
  | [] => "EC2: (not created yet)"
  | i :: _ => "EC2: " ++ pyStrSlice i.name 20

/-- The architecture-diagram chunk, with the three substituted values padded
to fixed widths. -/
def archChunk (s : Snapshot) : String :=
  arA ++ padTo 30 (bucketNameOf s) ++ arB ++ padTo 25 (tableNameOf s) ++ arC
    ++ padTo 20 (instInfoOf s) ++ arD

/-- The opening chunk of the page (everything up to the stats cards).
`mode` is `"Real AWS" if USE_AWS else "LocalStack"`, interpolated twice. -/
def headChunk (s : Snapshot) : String :=
  "<!DOCTYPE html>" ++ hdA ++ (if s.use_aws then "Real AWS" else "LocalStack") ++ hdB
    ++ (if s.use_aws then "#ff6b6b" else "#00d9ff") ++ hdC
    ++ (if s.use_aws then "Real AWS" else "LocalStack") ++ hdD
    ++ toString s.s3_buckets.length ++ hdE ++ toString s.dynamodb_tables.length ++ hdF
    ++ toString s.iam_users.length ++ hdG ++ toString s.instances.length ++ hdH

/-- One S3 bucket resource card. -/
def s3Card (b : BucketView) : String :=
  s3CardA ++ b.name ++ s3CardB ++ b.versioning.toLower ++ s3CardC
    ++ b.versioning ++ s3CardD

/-- One DynamoDB table resource card. -/
def ddbCard (t : TableView) : String :=
  ddbCardA ++ t.name ++ ddbCardB ++ t.hash_key ++ ddbCardC ++ t.status.toLower
    ++ ddbCardD ++ t.status ++ ddbCardE

/-- One access-key span inside a user card (`keys_html` loop body). -/
def keysSpanOf (k : AccessKeyView) : String :=
  keysSpanA ++ k.status.toLower ++ keysSpanB ++ pyTake k.id 16 ++ keysSpanC

/-- The accumulated `keys_html` for one user. -/
def keysHtmlOf (u : UserView) : String :=
  String.join (u.access_keys.map keysSpanOf)

/-- `", ".join(user['policies'][:3]) if user['policies'] else "None"`. -/
def policiesHtmlOf (u : UserView) : String :=
  if u.policies.isEmpty then "None" else String.intercalate ", " (u.policies.take 3)

/-- One IAM user resource card (`{keys_html or 'None'}` is string
truthiness). -/
def iamCard (u : UserView) : String :=
  let keys_html := keysHtmlOf u
  iamCardA ++ u.name ++ iamCardB ++ u.arn ++ iamCardC
    ++ (if keys_html = "" then "None" else keys_html) ++ iamCardD
    ++ policiesHtmlOf u ++ iamCardE

/-- One SSH key pair resource card. -/
def kpCard (k : KeyPairView) : String :=
  kpCardA ++ k.name ++ kpCardB ++ k.fingerprint ++ kpCardC ++ k.type ++ kpCardD

/-- One EC2 instance resource card
(`{instance['public_ip'] or instance['private_ip'] or 'N/A'}`). -/
def ec2Card (i : InstanceView) : String :=
  ec2CardA ++ pyShow i.name ++ ec2CardB ++ i.id ++ ec2CardC ++ i.type
    ++ ec2CardD ++ i.state ++ ec2CardE ++ i.state ++ ec2CardF
    ++ (if i.public_ip = "" then
          if i.private_ip = "" then "N/A" else i.private_ip
        else i.public_ip)
    ++ ec2CardG ++ i.key_name ++ ec2CardH

/-- `"<br>".join(sg['ingress_rules'][:3]) if sg['ingress_rules'] else "No
inbound rules"`. -/
def sgRulesHtml (sg : SecurityGroupView) : String :=
  if sg.ingress_rules.isEmpty then "No inbound rules"
  else String.intercalate "<br>" (sg.ingress_rules.take 3)

/-- One security group resource card. -/
def sgCard (sg : SecurityGroupView) : String :=
  sgCardA ++ sg.name ++ sgCardB ++ sg.id ++ sgCardC ++ sgRulesHtml sg ++ sgCardD

/-- The final fixed chunk (buttons, modal markup, script, closing tags). -/
def footerChunk : String := footerBodyL ++ "</html>\n"

/-- The page as the ordered list of appended pieces: the head, the
architecture diagram when any of buckets/tables/instances is non-empty
(`if s3_buckets or dynamodb_tables or instances:`), then one section per
category rendering its cards or its empty-state message
(`if <list>:` is list truthiness), and the footer. -/
def htmlChunks (s : Snapshot) : List String :=
  headChunk s
  :: ((if !s.s3_buckets.isEmpty || !s.dynamodb_tables.isEmpty || !s.instances.isEmpty
      then [archChunk s] else [])
  ++ [s3OpenL]
  ++ (if s.s3_buckets.isEmpty then [emptyS3] else s.s3_buckets.map s3Card)
  ++ [sectCloseL]
  ++ [ddbOpenL]
  ++ (if s.dynamodb_tables.isEmpty then [emptyDdb] else s.dynamodb_tables.map ddbCard)
  ++ [sectCloseL]
  ++ [iamOpenL]
  ++ (if s.iam_users.isEmpty then [emptyIam] else s.iam_users.map iamCard)
  ++ [sectCloseL]
  ++ [kpOpenL]
  ++ (if s.key_pairs.isEmpty then [emptyKp] else s.key_pairs.map kpCard)
  ++ [sectCloseL]
  ++ [ec2OpenL]
  ++ (if s.instances.isEmpty then [emptyEc2] else s.instances.map ec2Card)
  ++ [sectCloseL]
  ++ [sgOpenL]
  ++ (if s.security_groups.isEmpty then [emptySg] else s.security_groups.map sgCard)
  ++ [footerChunk])

/-- The rendered document: the concatenation of the chunks in order. -/
def renderSnapshot (s : Snapshot) : String := String.join (htmlChunks s)

/-- `generate_html`: collect all six categories, then render.  `none`
models an uncaught exception raised by `get_instances`. -/
def generate_html (R : Oracle) (useAws : Bool) : Option String :=
  (get_instances R).map fun ins =>
    renderSnapshot
      { s3_buckets := get_s3_buckets R
        dynamodb_tables := get_dynamodb_tables R
        iam_users := get_iam_users R
        key_pairs := get_key_pairs R
        instances := ins
        security_groups := get_security_groups R
        use_aws := useAws }

/-! ## Predicates on the rendered document -/

/-- Every empty-state message in the source starts with this markup, and
nothing else appended does. -/
def emptyStateMark : String := "<div class=\"empty-state\">"

/-- Every resource card appended by the section loops starts with this
markup (followed by its category class), and nothing else appended does. -/
def cardMark : String := "\n            <div class=\"resource-card"

/-- Chunk-level detector for empty-state messages. -/
def isEmptyStateChunk (c : String) : Bool := emptyStateMark.data.isPrefixOf c.data

/-- Chunk-level detector for resource cards. -/
def isCardChunk (c : String) : Bool := cardMark.data.isPrefixOf c.data

/-- `t` occurs as a contiguous substring of `s`. -/
def containsStr (s t : String) : Prop := ∃ a b, s = a ++ (t ++ b)

/-- The all-empty snapshot (zero items in every category). -/
def emptySnapshot : Snapshot := ⟨[], [], [], [], [], [], false⟩

/-! ## Analysis predicates and concrete inputs -/

/-- A tag dict the name-resolution loop can process without raising: it has
a `"Key"` field, and when that field is the string `"Name"` it also has a
`"Value"` field. -/
def tagOk (tag : Json) : Bool :=
  match tag.find? "Key" with
  | none => false
  | some (.str s) => if s = "Name" then (tag.find? "Value").isSome else true
  | some _ => true

/-- `tag["Key"] == "Name"` holds for this tag. -/
def isNameTag (tag : Json) : Bool :=
  match tag.find? "Key" with
  | some (.str s) => s = "Name"
  | _ => false

/-- Every tag of every instance of every reservation in a
describe-instances response satisfies `tagOk`. -/
def tagsOk (data : Json) : Bool :=
  (getArr data "Reservations").all fun res =>
    (getArr res "Instances").all fun inst =>
      (getArr inst "Tags").all tagOk

/-- The oracle on which every CLI invocation is unavailable. -/
def noneOracle : Oracle := fun _ _ _ => none

/-- C2 witness input: one bucket, one user, one table; every secondary
describe call is unavailable. -/
def O2w : Oracle := fun service action args =>
  match service, action, args with
  | "s3api", "list-buckets", [] =>
      some (.obj [("Buckets", .arr [.obj [("Name", .str "b1")]])])
  | "iam", "list-users", [] =>
      some (.obj [("Users", .arr [.obj [("UserName", .str "u1")]])])
  | "dynamodb", "list-tables", [] =>
      some (.obj [("TableNames", .arr [.str "t1"])])
  | _, _, _ => none

/-- C2 counterexample input: `list-tables` succeeds with one table `"t1"`
whose `describe-table` call is unavailable. -/
def O2bad : Oracle := fun service action args =>
  match service, action, args with
  | "dynamodb", "list-tables", [] =>
      some (.obj [("TableNames", .arr [.str "t1"])])
  | _, _, _ => none

/-- C3 counterexample input: the bucket list succeeds, and the versioning
sub-query also succeeds — with exit code 0 and empty stdout, which
`run_aws_command` parses as the empty object. -/
def O3bad : Oracle := fun service action args =>
  match service, action, args with
  | "s3api", "list-buckets", [] =>
      some (.obj [("Buckets", .arr [.obj [("Name", .str "b")]])])
  | "s3api", "get-bucket-versioning", ["--bucket", "b"] => some (.obj [])
  | _, _, _ => none

/-- C3 witness input: the versioning sub-query returns an explicit
`Status: Enabled`. -/
def O3w : Oracle := fun service action args =>
  match service, action, args with
  | "s3api", "list-buckets", [] =>
      some (.obj [("Buckets", .arr [.obj [("Name", .str "b")]])])
  | "s3api", "get-bucket-versioning", ["--bucket", "b"] =>
      some (.obj [("Status", .str "Enabled")])
  | _, _, _ => none

/-- C4 witness: the `Table` object of a successful describe — the claim's
example key schema (`id`/HASH followed by `ts`/RANGE) and no `ItemCount`. -/
def o4Table : Json :=
  .obj [("KeySchema", .arr
           [.obj [("AttributeName", .str "id"), ("KeyType", .str "HASH")],
            .obj [("AttributeName", .str "ts"), ("KeyType", .str "RANGE")]]),
        ("TableStatus", .str "ACTIVE")]

/-- C4 witness input oracle. -/
def O4w : Oracle := fun service action args =>
  match service, action, args with
  | "dynamodb", "describe-table", ["--table-name", "users"] =>
      some (.obj [("Table", o4Table)])
  | _, _, _ => none

/-- C5 counterexample: a tag whose `Key` is `"Name"` and whose `Value` is
the empty string. -/
def o5tag : Json := .obj [("Key", .str "Name"), ("Value", .str "")]

/-- C5 counterexample: the instance carrying `o5tag`. -/
def o5inst : Json := .obj [("InstanceId", .str "i-1"), ("Tags", .arr [o5tag])]

/-- C5 counterexample input: one reservation with one instance whose only
tag is a `"Name"` tag with empty `Value`. -/
def O5bad : Oracle := fun service action args =>
  match service, action, args with
  | "ec2", "describe-instances", [] =>
      some (.obj [("Reservations", .arr [.obj [("Instances", .arr [o5inst])]])])
  | _, _, _ => none

/-- The claim's example tag list: `Env=prod` then `Name=web-1`. -/
def tagEnv : Json := .obj [("Key", .str "Env"), ("Value", .str "prod")]

/-- The claim's example `Name` tag. -/
def tagName : Json := .obj [("Key", .str "Name"), ("Value", .str "web-1")]

/-- C5 witness: an instance carrying the claim's example tags. -/
def o5wInst : Json :=
  .obj [("InstanceId", .str "i-9"), ("Tags", .arr [tagEnv, tagName])]

/-- The claim's example ingress rule: port 22 from 10.0.0.0/16. -/
def sgExampleRule : Json :=
  .obj [("FromPort", .num 22),
        ("IpRanges", .arr [.obj [("CidrIp", .str "10.0.0.0/16")]])]

/-- The claim's example group `web-sg` with the single example rule. -/
def sgExampleGroup : Json :=
  .obj [("GroupName", .str "web-sg"), ("IpPermissions", .arr [sgExampleRule])]

/-- A group literally named `default`, carrying rules. -/
def sgDefaultGroup : Json :=
  .obj [("GroupName", .str "default"), ("IpPermissions", .arr [sgExampleRule])]

/-- C6 witness input: one `default` group and the example `web-sg` group. -/
def O6w : Oracle := fun service action args =>
  match service, action, args with
  | "ec2", "describe-security-groups", [] =>
      some (.obj [("SecurityGroups", .arr [sgDefaultGroup, sgExampleGroup])])
  | _, _, _ => none

/-- C7 witness: a key pair with a 44-character fingerprint and no
`KeyType`. -/
def o7Key : Json :=
  .obj [("KeyName", .str "deployer"),
        ("KeyFingerprint", .str "aa:bb:cc:dd:ee:ff:00:11:22:33:44:55:66:77:88")]

/-- C7 witness input oracle. -/
def O7w : Oracle := fun service action args =>
  match service, action, args with
  | "ec2", "describe-key-pairs", [] =>
      some (.obj [("KeyPairs", .arr [o7Key])])
  | _, _, _ => none

/-- C8 witness snapshot: one bucket with a 39-character name, every other
category empty. -/
def s8w : Snapshot :=
  { s3_buckets := [⟨"terraform-state-bucket-0123456789abcdef", "", "Enabled"⟩]
    dynamodb_tables := []
    iam_users := []
    key_pairs := []
    instances := []
    security_groups := []
    use_aws := false }

/-- C10 failing input: a tag object with a `Value` but no `Key`. -/
def o10tag : Json := .obj [("Value", .str "x")]

/-- C10 failing input: the instance carrying `o10tag`. -/
def o10inst : Json := .obj [("InstanceId", .str "i-2"), ("Tags", .arr [o10tag])]

/-- C10 failing input: a successful describe-instances response containing
a tag without a `"Key"` field. -/
def O10bad : Oracle := fun service action args =>
  match service, action, args with
  | "ec2", "describe-instances", [] =>
      some (.obj [("Reservations", .arr [.obj [("Instances", .arr [o10inst])]])])
  | _, _, _ => none

/-- C10 witness: a well-tagged describe-instances response. -/
def o10wData : Json :=
  .obj [("Reservations", .arr [.obj [("Instances", .arr
    [.obj [("InstanceId", .str "i-3"), ("Tags", .arr [tagEnv, tagName])]])]])]

/-- C10 witness input oracle. -/
def O10w : Oracle := fun service action args =>
  match service, action, args with
  | "ec2", "describe-instances", [] => some o10wData
  | _, _, _ => none

/-! ## Helper lemmas -/

set_option maxRecDepth 100000

theorem strAssoc (a b c : String) : a ++ b ++ c = a ++ (b ++ c) := by
  apply String.ext
  simp [String.data_append, List.append_assoc]

theorem joinConsStr (a : String) (l : List String) :
    String.join (a :: l) = a ++ String.join l := by
  apply String.ext
  simp [String.data_join, String.data_append]

theorem joinAppendOne (l : List String) (a : String) :
    String.join (l ++ [a]) = String.join l ++ a := by
  apply String.ext
  simp [String.data_join, String.data_append]

theorem joinMemContains (l : List String) (c : String) (h : c ∈ l) :
    ∃ x y, String.join l = x ++ (c ++ y) := by
  obtain ⟨s, t, rfl⟩ := List.append_of_mem h
  refine ⟨String.join s, String.join t, ?_⟩
  apply String.ext
  simp [String.data_join, String.data_append]

/-- The overwriting `hash_key` loop keeps the last HASH entry. -/
theorem lastHash_eq_getLast (ks : List Json) :
    lastHash ks = ((ks.filter isHashAttr).getLast?).elim ""
      (fun attr => jGetStr attr "AttributeName" "") := by
  induction ks using List.reverseRecOn with
  | nil => rfl
  | append_singleton l a ih =>
    by_cases h : isHashAttr a
    · simp only [lastHash, List.foldl_append, List.filter_append] at ih ⊢
      simp [h, List.getLast?_concat]
    · simp only [lastHash, List.foldl_append, List.filter_append] at ih ⊢
      simpa [h] using ih

/-- A tag list whose prefix satisfies `tagOk` cannot make the name loop
raise. -/
theorem findName_isSome (tags : List Json) (h : tags.all tagOk = true) :
    (findName tags).isSome = true := by
  induction tags with
  | nil => rfl
  | cons t rest ih =>
    rw [List.all_cons, Bool.and_eq_true] at h
    obtain ⟨ht, hrest⟩ := h
    have hr := ih hrest
    unfold tagOk at ht
    simp only [findName]
    cases hk : t.find? "Key" with
    | none => rw [hk] at ht; simp at ht
    | some k =>
      rw [hk] at ht
      cases k with
      | str s =>
        by_cases hs : s = "Name"
        · simp only [hs, if_pos rfl] at ht ⊢
          simpa using ht
        · simp only [if_neg hs] at ht ⊢
          exact hr
      | null => exact hr
      | bool b => exact hr
      | num n => exact hr
      | arr xs => exact hr
      | obj kvs => exact hr

theorem mkInstance_isSome (inst : Json)
    (h : (getArr inst "Tags").all tagOk = true) :
    (mkInstance inst).isSome = true := by
  have := findName_isSome (getArr inst "Tags") h
  unfold mkInstance
  cases hf : findName (getArr inst "Tags") with
  | none => rw [hf] at this; exact absurd this (by simp)
  | some v => rfl

theorem mapM_option_isSome {α β : Type} (f : α → Option β) (l : List α)
    (h : ∀ a ∈ l, (f a).isSome = true) : (l.mapM f).isSome = true := by
  induction l with
  | nil => rfl
  | cons a rest ih =>
    rw [List.mapM_cons]
    have ha := h a (List.Mem.head _)
    cases hfa : f a with
    | none => rw [hfa] at ha; exact absurd ha (by simp)
    | some b =>
      have hrest := ih (fun x hx => h x (List.Mem.tail _ hx))
      cases hr : rest.mapM f with
      | none => rw [hr] at hrest; exact absurd hrest (by simp)
      | some bs => simp [Option.bind]

/-- Every rendered page starts with the doctype declaration. -/
theorem renderStartsWithDoctype (s : Snapshot) :
    ∃ r, renderSnapshot s = "<!DOCTYPE html>" ++ r := by
  unfold renderSnapshot htmlChunks
  rw [joinConsStr]
  unfold headChunk
  simp only [strAssoc]
  exact ⟨_, rfl⟩

/-- Every rendered page ends with the closing html tag. -/
theorem renderEndsWithHtml (s : Snapshot) :
    ∃ p, renderSnapshot s = p ++ "</html>\n" := by
  unfold renderSnapshot htmlChunks footerChunk
  rw [joinConsStr, joinAppendOne]
  simp only [← strAssoc]
  exact ⟨_, rfl⟩

/-! ## Claims -/

/-- C1: for every one of the six collectors
(`get_s3_buckets`, `get_dynamodb_tables`, `get_iam_users`, `get_key_pairs`,
`get_instances`, `get_security_groups`), if the primary list call returns
`Unavailable` (`none`), the collector returns an empty sequence and does
not raise (`get_instances` returns `some []`). -/
theorem c1_list_unavailable_yields_empty (R : Oracle) :
    (R "s3api" "list-buckets" [] = none → get_s3_buckets R = [])
    ∧ (R "dynamodb" "list-tables" [] = none → get_dynamodb_tables R = [])
    ∧ (R "iam" "list-users" [] = none → get_iam_users R = [])
    ∧ (R "ec2" "describe-key-pairs" [] = none → get_key_pairs R = [])
    ∧ (R "ec2" "describe-instances" [] = none → get_instances R = some [])
    ∧ (R "ec2" "describe-security-groups" [] = none → get_security_groups R = []) := by
  refine ⟨?_, ?_, ?_, ?_, ?_, ?_⟩ <;> intro h
  · simp [get_s3_buckets, h]
  · simp [get_dynamodb_tables, h]
  · simp [get_iam_users, h]
  · simp [get_key_pairs, h]
  · simp [get_instances, h]
  · simp [get_security_groups, h]

/-- C1 witness: at the oracle where every CLI call is unavailable, all six
collectors return the empty sequence. -/
theorem c1_list_unavailable_yields_empty_witness :
    get_s3_buckets noneOracle = [] ∧ get_dynamodb_tables noneOracle = []
    ∧ get_iam_users noneOracle = [] ∧ get_key_pairs noneOracle = []
    ∧ get_instances noneOracle = some [] ∧ get_security_groups noneOracle = [] := by
  have h := c1_list_unavailable_yields_empty noneOracle
  exact ⟨h.1 rfl, h.2.1 rfl, h.2.2.1 rfl, h.2.2.2.1 rfl, h.2.2.2.2.1 rfl,
    h.2.2.2.2.2 rfl⟩

/-- C2 counterexample: `list-tables` succeeds (with a truthy response
naming table `"t1"`), the secondary `describe-table` sub-query for `"t1"`
is `Unavailable`, and the collector's result omits the table entirely
(it is empty) instead of including it with fallback fields — refuting the
claim's "the item is still included ... fallback fields for tables". -/
theorem c2_partial_failure_counterexample :
    O2bad "dynamodb" "list-tables" [] =
        some (.obj [("TableNames", .arr [.str "t1"])])
    ∧ pyTruthy (.obj [("TableNames", .arr [.str "t1"])]) = true
    ∧ O2bad "dynamodb" "describe-table" ["--table-name", "t1"] = none
    ∧ get_dynamodb_tables O2bad = [] :=
  ⟨rfl, rfl, rfl, rfl⟩

/-- C2 (amended): when the primary list call succeeded and a secondary
sub-query returns `Unavailable`: a bucket is still included with
versioning `"Unknown"`; a user is still included with empty access-key and
policy lists; but a table whose `describe-table` call fails is omitted —
`get_dynamodb_tables` keeps exactly the tables whose describe step
produced a record. -/
theorem c2_partial_failure_fallbacks (R : Oracle) :
    (∀ data bucket, R "s3api" "list-buckets" [] = some data →
        pyTruthy data = true → bucket ∈ getArr data "Buckets" →
        R "s3api" "get-bucket-versioning"
            ["--bucket", jGetStr bucket "Name" ""] = none →
        mkBucket R bucket ∈ get_s3_buckets R
          ∧ (mkBucket R bucket).versioning = "Unknown")
    ∧ (∀ data user, R "iam" "list-users" [] = some data →
        pyTruthy data = true → user ∈ getArr data "Users" →
        R "iam" "list-access-keys"
            ["--user-name", jGetStr user "UserName" ""] = none →
        R "iam" "list-attached-user-policies"
            ["--user-name", jGetStr user "UserName" ""] = none →
        mkUser R user ∈ get_iam_users R
          ∧ (mkUser R user).access_keys = [] ∧ (mkUser R user).policies = [])
    ∧ (∀ tn, R "dynamodb" "describe-table" ["--table-name", jStrD tn ""] = none →
        describeTable R tn = none)
    ∧ (∀ data, R "dynamodb" "list-tables" [] = some data → pyTruthy data = true →
        get_dynamodb_tables R = (getArr data "TableNames").filterMap (describeTable R)) := by
  refine ⟨?_, ?_, ?_, ?_⟩
  · intro data bucket h1 h2 hmem hv
    have hs : get_s3_buckets R = (getArr data "Buckets").map (mkBucket R) := by
      simp [get_s3_buckets, h1, h2]
    exact ⟨hs ▸ List.mem_map_of_mem _ hmem, by simp [mkBucket, bucketVersioning, hv]⟩
  · intro data user h1 h2 hmem hk hp
    have hs : get_iam_users R = (getArr data "Users").map (mkUser R) := by
      simp [get_iam_users, h1, h2]
    exact ⟨hs ▸ List.mem_map_of_mem _ hmem,
      by simp [mkUser, userAccessKeys, hk],
      by simp [mkUser, userPolicies, hp]⟩
  · intro tn h
    simp [describeTable, h]
  · intro data h1 h2
    simp [get_dynamodb_tables, h1, h2]

/-- C2 witness: one bucket, one user and one table whose secondary calls
are all unavailable — the bucket and user records are present with their
fallbacks, and the table's describe step yields no record. -/
theorem c2_partial_failure_fallbacks_witness :
    mkBucket O2w (.obj [("Name", .str "b1")]) ∈ get_s3_buckets O2w
    ∧ (mkBucket O2w (.obj [("Name", .str "b1")])).versioning = "Unknown"
    ∧ mkUser O2w (.obj [("UserName", .str "u1")]) ∈ get_iam_users O2w
    ∧ (mkUser O2w (.obj [("UserName", .str "u1")])).access_keys = []
    ∧ (mkUser O2w (.obj [("UserName", .str "u1")])).policies = []
    ∧ describeTable O2w (.str "t1") = none := by
  have h := c2_partial_failure_fallbacks O2w
  have hb := h.1 _ (.obj [("Name", .str "b1")]) rfl rfl (List.Mem.head _) rfl
  have hu := h.2.1 _ (.obj [("UserName", .str "u1")]) rfl rfl (List.Mem.head _) rfl rfl
  have ht := h.2.2.1 (.str "t1") rfl
  exact ⟨hb.1, hb.2, hu.1, hu.2.1, hu.2.2, ht⟩

/-- C3 counterexample: the versioning sub-query SUCCEEDS (exit 0, empty
stdout, parsed as `{}`) — it did not fail — yet the resulting view has
versioning `"Unknown"`, not `"Disabled"`: `if versioning` is Python
truthiness and `{}` is falsy.  This refutes both "if it succeeds with no
Status field the view has Disabled" and "Unknown appears only when the
sub-query itself failed". -/
theorem c3_versioning_counterexample :
    O3bad "s3api" "get-bucket-versioning" ["--bucket", "b"] = some (.obj [])
    ∧ get_s3_buckets O3bad = [{ name := "b", created := "", versioning := "Unknown" }] :=
  ⟨rfl, rfl⟩

/-- C3 (amended): for every bucket of a successful list call, the view's
versioning is `bucketVersioning`; it is `"Unknown"` when the sub-query
failed OR returned a falsy (empty) response; it is the exact `Status`
string when the sub-query returned a truthy response with a string
`Status`; it is `"Disabled"` when the truthy response has no `Status`
field; and it equals `"Unknown"` exactly when the sub-query failed,
returned a falsy response, or the response's own `Status` is the string
`"Unknown"`. -/
theorem c3_versioning_statuses (R : Oracle) (name : String) :
    (R "s3api" "get-bucket-versioning" ["--bucket", name] = none →
        bucketVersioning R name = "Unknown")
    ∧ (∀ v, R "s3api" "get-bucket-versioning" ["--bucket", name] = some v →
        pyTruthy v = false → bucketVersioning R name = "Unknown")
    ∧ (∀ v s, R "s3api" "get-bucket-versioning" ["--bucket", name] = some v →
        pyTruthy v = true → v.find? "Status" = some (.str s) →
        bucketVersioning R name = s)
    ∧ (∀ v, R "s3api" "get-bucket-versioning" ["--bucket", name] = some v →
        pyTruthy v = true → v.find? "Status" = none →
        bucketVersioning R name = "Disabled")
    ∧ (bucketVersioning R name = "Unknown" ↔
        (R "s3api" "get-bucket-versioning" ["--bucket", name] = none
         ∨ ∃ v, R "s3api" "get-bucket-versioning" ["--bucket", name] = some v
             ∧ (pyTruthy v = false ∨ v.find? "Status" = some (.str "Unknown"))))
    ∧ (∀ data bucket, R "s3api" "list-buckets" [] = some data →
        pyTruthy data = true → bucket ∈ getArr data "Buckets" →
        mkBucket R bucket ∈ get_s3_buckets R
          ∧ (mkBucket R bucket).versioning
              = bucketVersioning R (jGetStr bucket "Name" "")) := by
  refine ⟨?_, ?_, ?_, ?_, ⟨?_, ?_⟩, ?_⟩
  · intro h; simp [bucketVersioning, h]
  · intro v h hf; simp [bucketVersioning, h, hf]
  · intro v s h ht hs; simp [bucketVersioning, h, ht, jGetStr, hs]
  · intro v h ht hs; simp [bucketVersioning, h, ht, jGetStr, hs]
  · intro hu
    unfold bucketVersioning at hu
    cases hc : R "s3api" "get-bucket-versioning" ["--bucket", name] with
    | none => exact Or.inl rfl
    | some v =>
      rw [hc] at hu
      dsimp only at hu
      refine Or.inr ⟨v, rfl, ?_⟩
      by_cases ht : pyTruthy v
      · rw [if_pos ht] at hu
        refine Or.inr ?_
        unfold jGetStr at hu
        cases hf : v.find? "Status" with
        | none => rw [hf] at hu; exact absurd hu (by decide)
        | some w =>
          rw [hf] at hu
          cases w <;> dsimp only at hu
          all_goals first
          | exact absurd hu (by decide)
          | (rw [← hu]; try exact hf)
      · exact Or.inl (by simpa using ht)
  · intro hcase
    rcases hcase with h | ⟨v, hv, hf | hs⟩
    · simp [bucketVersioning, h]
    · simp [bucketVersioning, hv, hf]
    · by_cases ht : pyTruthy v
      · simp [bucketVersioning, hv, ht, jGetStr, hs]
      · simp [bucketVersioning, hv, ht]
  · intro data bucket h1 h2 hmem
    have hs : get_s3_buckets R = (getArr data "Buckets").map (mkBucket R) := by
      simp [get_s3_buckets, h1, h2]
    exact ⟨hs ▸ List.mem_map_of_mem _ hmem, rfl⟩

/-- C3 witness: a truthy versioning response with `Status: Enabled` gives
exactly `"Enabled"`, and the bucket's record is in the collector output. -/
theorem c3_versioning_statuses_witness :
    bucketVersioning O3w "b" = "Enabled"
    ∧ mkBucket O3w (.obj [("Name", .str "b")]) ∈ get_s3_buckets O3w := by
  have h := c3_versioning_statuses O3w "b"
  exact ⟨h.2.2.1 _ "Enabled" rfl rfl rfl,
    (h.2.2.2.2.2 _ _ rfl rfl (List.Mem.head _)).1⟩

/-- C4: for every table whose describe response succeeds (truthy, with a
`Table` object): the emitted record's `hash_key` is `lastHash` of the key
schema, which equals the `AttributeName` of the LAST schema entry whose
`KeyType` is `"HASH"` (empty string when none exists); on the claim's
example schema (`id`/HASH, `ts`/RANGE) it is `"id"`; and `item_count`
defaults to `0` when `ItemCount` is absent. -/
theorem c4_table_hash_key_and_item_count (R : Oracle) (tn details table : Json)
    (h1 : R "dynamodb" "describe-table" ["--table-name", jStrD tn ""] = some details)
    (h2 : pyTruthy details = true)
    (h3 : details.find? "Table" = some table) :
    describeTable R tn = some
      { name := jStrD tn ""
        hash_key := lastHash (getArr table "KeySchema")
        status := jGetStr table "TableStatus" "UNKNOWN"
        item_count := jGetInt table "ItemCount" 0 }
    ∧ lastHash (getArr table "KeySchema")
        = ((getArr table "KeySchema").filter isHashAttr).getLast?.elim ""
            (fun attr => jGetStr attr "AttributeName" "")
    ∧ (table.find? "ItemCount" = none → jGetInt table "ItemCount" 0 = 0)
    ∧ lastHash [Json.obj [("AttributeName", .str "id"), ("KeyType", .str "HASH")],
                Json.obj [("AttributeName", .str "ts"), ("KeyType", .str "RANGE")]]
        = "id" := by
  refine ⟨?_, lastHash_eq_getLast _, ?_, rfl⟩
  · simp [describeTable, h1, h2, h3]
  · intro h; simp [jGetInt, h]

/-- C4 witness: on the example describe response (schema `id`/HASH then
`ts`/RANGE, no `ItemCount`), the record has `hash_key = "id"` and
`item_count = 0`. -/
theorem c4_table_hash_key_and_item_count_witness :
    describeTable O4w (.str "users")
      = some { name := "users", hash_key := "id", status := "ACTIVE", item_count := 0 }
    ∧ jGetInt o4Table "ItemCount" 0 = 0 := by
  have h := c4_table_hash_key_and_item_count O4w (.str "users")
    (.obj [("Table", o4Table)]) o4Table rfl rfl rfl
  exact ⟨h.1, h.2.2.1 rfl⟩

/-- C5 counterexample: a successful describe-instances response whose only
instance has exactly one tag, `{Key: "Name", Value: ""}`.  A `"Name"` tag
exists and its `Value` is `""`, yet the display name is `"(unnamed)"`
(because `name or "(unnamed)"` is Python truthiness) — refuting both "the
display name is the Value of the first tag whose Key is Name" and
"`(unnamed)` ... exactly when no tag whose Key is Name exists". -/
theorem c5_name_resolution_counterexample :
    O5bad "ec2" "describe-instances" [] =
      some (.obj [("Reservations", .arr [.obj [("Instances", .arr [o5inst])]])])
    ∧ getArr o5inst "Tags" = [o5tag]
    ∧ o5tag.find? "Key" = some (.str "Name")
    ∧ o5tag.find? "Value" = some (.str "")
    ∧ get_instances O5bad
        = some [⟨"i-1", .str "(unnamed)", "", "unknown", "", "", ""⟩] :=
  ⟨rfl, rfl, rfl, rfl, rfl⟩

/-- C5 (amended): the tag loop stops at the first tag whose `Key` is the
string `"Name"` and skips tags with other string keys; the record's display
name is that tag's `Value` when the value is truthy (e.g. a non-empty
string), and the literal `"(unnamed)"` when the value is falsy (e.g. `""`)
or when no `"Name"` tag exists; on the example tags
`[{Key:"Env",Value:"prod"},{Key:"Name",Value:"web-1"}]` the loop resolves
`"web-1"`. -/
theorem c5_name_resolution :
    (∀ tag rest v, tag.find? "Key" = some (.str "Name") →
        tag.find? "Value" = some v → findName (tag :: rest) = some v)
    ∧ (∀ tag rest s, tag.find? "Key" = some (.str s) → s ≠ "Name" →
        findName (tag :: rest) = findName rest)
    ∧ (∀ inst v, findName (getArr inst "Tags") = some v → pyTruthy v = true →
        ∃ ivw, mkInstance inst = some ivw ∧ ivw.name = v)
    ∧ (∀ inst v, findName (getArr inst "Tags") = some v → pyTruthy v = false →
        ∃ ivw, mkInstance inst = some ivw ∧ ivw.name = .str "(unnamed)")
    ∧ (∀ tags, (∀ tag ∈ tags, tagOk tag = true ∧ isNameTag tag = false) →
        findName tags = some (.str ""))
    ∧ findName [tagEnv, tagName] = some (.str "web-1") := by
  refine ⟨?_, ?_, ?_, ?_, ?_, rfl⟩
  · intro tag rest v hk hv
    simp [findName, hk, hv]
  · intro tag rest s hk hs
    simp [findName, hk, hs]
  · intro inst v hf ht
    unfold mkInstance
    rw [hf]
    refine ⟨_, rfl, ?_⟩
    dsimp only
    rw [if_pos ht]
  · intro inst v hf ht
    unfold mkInstance
    rw [hf]
    refine ⟨_, rfl, ?_⟩
    dsimp only
    simp [ht]
  · intro tags h
    induction tags with
    | nil => rfl
    | cons t rest ih =>
      obtain ⟨hok, hname⟩ := h t (List.Mem.head _)
      have hr := ih (fun x hx => h x (List.Mem.tail _ hx))
      unfold isNameTag at hname
      simp only [findName]
      cases hk : t.find? "Key" with
      | none => unfold tagOk at hok; rw [hk] at hok; simp at hok
      | some k =>
        rw [hk] at hname
        cases k <;> dsimp only at hname
        all_goals first
        | exact hr
        | (rename_i s
           have hs : s ≠ "Name" := by simpa using hname
           simp [hs, hr])

/-- C5 witness: the example tags resolve to `"web-1"`, even when the
`Name` tag comes first with further tags behind it, and the instance
record built from the example carries that name. -/
theorem c5_name_resolution_witness :
    findName [tagEnv, tagName] = some (.str "web-1")
    ∧ findName [tagName, tagEnv] = some (.str "web-1")
    ∧ (∃ ivw, mkInstance o5wInst = some ivw ∧ ivw.name = .str "web-1") := by
  have h := c5_name_resolution
  exact ⟨h.2.2.2.2.2,
    h.1 tagName [tagEnv] (.str "web-1") rfl rfl,
    h.2.2.1 o5wInst (.str "web-1") rfl rfl⟩

/-- C6: for every successful (truthy) describe-security-groups response:
the collector keeps exactly the groups whose `GroupName` is not the string
`"default"` (a group named `default` is excluded regardless of its rules),
in order, mapped to records whose ingress summaries come from
`summarizeRule`; a summary uses only the FIRST CIDR range of the rule,
renders `"all"` when `FromPort` is absent and `"any"` when no CIDR is
present; and the claim's example rule yields `"22 from 10.0.0.0/16"`. -/
theorem c6_security_groups (R : Oracle) (data : Json)
    (h1 : R "ec2" "describe-security-groups" [] = some data)
    (h2 : pyTruthy data = true) :
    get_security_groups R
      = ((getArr data "SecurityGroups").filter (fun g => !isDefaultSG g)).map mkSG
    ∧ (∀ g, g.find? "GroupName" = some (.str "default") → isDefaultSG g = true)
    ∧ (∀ g, g ∈ getArr data "SecurityGroups" → isDefaultSG g = false →
        mkSG g ∈ get_security_groups R)
    ∧ (∀ g, (mkSG g).ingress_rules = (getArr g "IpPermissions").map summarizeRule)
    ∧ (∀ rule, rule.find? "FromPort" = none →
        ∃ c, summarizeRule rule = "all from " ++ c)
    ∧ (∀ rule, rule.find? "IpRanges" = none →
        ∃ p, summarizeRule rule = p ++ " from any")
    ∧ (∀ rule r0 r1 rs, rule.find? "IpRanges" = some (.arr (r0 :: r1 :: rs)) →
        cidrOf rule = jGetStr r0 "CidrIp" "")
    ∧ summarizeRule sgExampleRule = "22 from 10.0.0.0/16"
    ∧ mkSG sgExampleGroup
        = { id := "", name := "web-sg", description := ""
            ingress_rules := ["22 from 10.0.0.0/16"] } := by
  refine ⟨?_, ?_, ?_, ?_, ?_, ?_, ?_, rfl, rfl⟩
  · simp [get_security_groups, h1, h2]
  · intro g hg; simp [isDefaultSG, hg]
  · intro g hmem hdef
    have hs : get_security_groups R
        = ((getArr data "SecurityGroups").filter (fun g => !isDefaultSG g)).map mkSG := by
      simp [get_security_groups, h1, h2]
    rw [hs]
    exact List.mem_map_of_mem _ (List.mem_filter.mpr ⟨hmem, by simp [hdef]⟩)
  · intro g; rfl
  · intro rule h
    refine ⟨if cidrOf rule = "" then "any" else cidrOf rule, ?_⟩
    unfold summarizeRule portOf
    rw [h]
    rfl
  · intro rule h
    refine ⟨portOf rule, ?_⟩
    unfold summarizeRule cidrOf
    rw [h]
    show portOf rule ++ " from " ++ "any" = portOf rule ++ " from any"
    rw [strAssoc]
    rfl
  · intro rule r0 r1 rs h
    simp [cidrOf, h]

/-- C6 witness: on a response holding a `default` group (with rules) and
the example `web-sg` group, the collector returns only `web-sg`'s record,
with the example summary. -/
theorem c6_security_groups_witness :
    get_security_groups O6w = [mkSG sgExampleGroup]
    ∧ isDefaultSG sgDefaultGroup = true
    ∧ mkSG sgExampleGroup ∈ get_security_groups O6w
    ∧ summarizeRule sgExampleRule = "22 from 10.0.0.0/16" := by
  have h := c6_security_groups O6w
    (.obj [("SecurityGroups", .arr [sgDefaultGroup, sgExampleGroup])]) rfl rfl
  refine ⟨?_, h.2.1 sgDefaultGroup rfl,
    h.2.2.1 sgExampleGroup (List.Mem.tail _ (List.Mem.head _)) rfl,
    h.2.2.2.2.2.2.2.1⟩
  rw [h.1]
  rfl

/-- C7: for every key pair of a successful (truthy) describe-key-pairs
response, the record is in the collector output; its fingerprint is the raw
`KeyFingerprint` truncated to 40 characters followed by `"..."`; its type
is the raw `KeyType`, and the literal `"rsa"` when `KeyType` is absent. -/
theorem c7_key_pairs (R : Oracle) (data key : Json)
    (h1 : R "ec2" "describe-key-pairs" [] = some data)
    (h2 : pyTruthy data = true)
    (h3 : key ∈ getArr data "KeyPairs") :
    mkKeyPair key ∈ get_key_pairs R
    ∧ (∀ fp, key.find? "KeyFingerprint" = some (.str fp) →
        (mkKeyPair key).fingerprint = pyTake fp 40 ++ "...")
    ∧ (∀ ty, key.find? "KeyType" = some (.str ty) → (mkKeyPair key).type = ty)
    ∧ (key.find? "KeyType" = none → (mkKeyPair key).type = "rsa") := by
  refine ⟨?_, ?_, ?_, ?_⟩
  · have hs : get_key_pairs R = (getArr data "KeyPairs").map mkKeyPair := by
      simp [get_key_pairs, h1, h2]
    exact hs ▸ List.mem_map_of_mem _ h3
  · intro fp h; simp [mkKeyPair, jGetStr, h]
  · intro ty h; simp [mkKeyPair, jGetStr, h]
  · intro h; simp [mkKeyPair, jGetStr, h]

/-- C7 witness: a key pair with a 44-character fingerprint and no
`KeyType` appears in the output with the truncated fingerprint plus
ellipsis and type `"rsa"`. -/
theorem c7_key_pairs_witness :
    mkKeyPair o7Key ∈ get_key_pairs O7w
    ∧ (mkKeyPair o7Key).fingerprint
        = pyTake "aa:bb:cc:dd:ee:ff:00:11:22:33:44:55:66:77:88" 40 ++ "..."
    ∧ (mkKeyPair o7Key).type = "rsa" := by
  have h := c7_key_pairs O7w (.obj [("KeyPairs", .arr [o7Key])]) o7Key
    rfl rfl (List.Mem.head _)
  exact ⟨h.1, h.2.1 _ rfl, h.2.2.2 rfl⟩

/-- C8: whenever the architecture diagram is rendered (which happens
exactly when buckets, tables or instances are non-empty), the diagram
chunk appears in the document and substitutes: the first bucket's name
truncated to 30 characters (placeholder `"terraform-state-bucket"` when
there are no buckets), the first table's name truncated to 25
(`"terraform-locks"` when none), and the first instance's name truncated
to 20 in `"EC2: ..."` (`"EC2: (not created yet)"` when none), each padded
to its fixed width. -/
theorem c8_architecture_diagram (s : Snapshot)
    (h : s.s3_buckets ≠ [] ∨ s.dynamodb_tables ≠ [] ∨ s.instances ≠ []) :
    archChunk s ∈ htmlChunks s
    ∧ containsStr (renderSnapshot s) (archChunk s)
    ∧ archChunk s = arA ++ padTo 30 (bucketNameOf s) ++ arB
        ++ padTo 25 (tableNameOf s) ++ arC ++ padTo 20 (instInfoOf s) ++ arD
    ∧ (s.s3_buckets = [] → bucketNameOf s = "terraform-state-bucket")
    ∧ (∀ b bs, s.s3_buckets = b :: bs → bucketNameOf s = pyTake b.name 30)
    ∧ (s.dynamodb_tables = [] → tableNameOf s = "terraform-locks")
    ∧ (∀ t ts, s.dynamodb_tables = t :: ts → tableNameOf s = pyTake t.name 25)
    ∧ (s.instances = [] → instInfoOf s = "EC2: (not created yet)")
    ∧ (∀ i is nm, s.instances = i :: is → i.name = .str nm →
        instInfoOf s = "EC2: " ++ pyTake nm 20) := by
  have hc : (!s.s3_buckets.isEmpty || !s.dynamodb_tables.isEmpty
      || !s.instances.isEmpty) = true := by
    rcases h with h | h | h
    · cases hx : s.s3_buckets with
      | nil => exact absurd hx h
      | cons a l => simp [hx]
    · cases hx : s.dynamodb_tables with
      | nil => exact absurd hx h
      | cons a l => simp [hx]
    · cases hx : s.instances with
      | nil => exact absurd hx h
      | cons a l => simp [hx]
  have hmem : archChunk s ∈ htmlChunks s := by
    simp [htmlChunks, hc]
  refine ⟨hmem, joinMemContains _ _ hmem, rfl, ?_, ?_, ?_, ?_, ?_, ?_⟩
  · intro h4; simp [bucketNameOf, h4]
  · intro b bs h5; simp [bucketNameOf, h5]
  · intro h6; simp [tableNameOf, h6]
  · intro t ts h7; simp [tableNameOf, h7]
  · intro h8; simp [instInfoOf, h8]
  · intro i is nm h9 hn; simp [instInfoOf, h9, pyStrSlice, hn]

/-- C8 witness: one bucket with a 39-character name and no tables or
instances — the diagram chunk is present with the 30-character truncation
and the two placeholder texts. -/
theorem c8_architecture_diagram_witness :
    archChunk s8w ∈ htmlChunks s8w
    ∧ bucketNameOf s8w = "terraform-state-bucket-0123456"
    ∧ tableNameOf s8w = "terraform-locks"
    ∧ instInfoOf s8w = "EC2: (not created yet)" := by
  have h := c8_architecture_diagram s8w (Or.inl (by simp [s8w]))
  exact ⟨h.1, h.2.2.2.2.1 _ _ rfl, h.2.2.2.2.2.1 rfl, h.2.2.2.2.2.2.2.1 rfl⟩

/-- The chunk list of the all-empty snapshot: every section takes its
empty-state branch and the architecture diagram is absent. -/
theorem htmlChunks_empty :
    htmlChunks emptySnapshot
      = [headChunk emptySnapshot, s3OpenL, emptyS3, sectCloseL, ddbOpenL, emptyDdb,
         sectCloseL, iamOpenL, emptyIam, sectCloseL, kpOpenL, emptyKp, sectCloseL,
         ec2OpenL, emptyEc2, sectCloseL, sgOpenL, emptySg, footerChunk] := rfl

/-- C9: for the all-empty snapshot the rendered document contains each of
the six empty-state strings (pairwise distinct texts); exactly six chunks
are empty-state messages; zero chunks are resource cards; and the document
is delimited as an HTML document (it starts with the doctype declaration
and ends with the closing html tag). -/
theorem c9_all_empty_snapshot_render :
    containsStr (renderSnapshot emptySnapshot) emptyS3
    ∧ containsStr (renderSnapshot emptySnapshot) emptyDdb
    ∧ containsStr (renderSnapshot emptySnapshot) emptyIam
    ∧ containsStr (renderSnapshot emptySnapshot) emptyKp
    ∧ containsStr (renderSnapshot emptySnapshot) emptyEc2
    ∧ containsStr (renderSnapshot emptySnapshot) emptySg
    ∧ [emptyS3, emptyDdb, emptyIam, emptyKp, emptyEc2, emptySg].Nodup
    ∧ (htmlChunks emptySnapshot).countP isEmptyStateChunk = 6
    ∧ (htmlChunks emptySnapshot).countP isCardChunk = 0
    ∧ (∃ r, renderSnapshot emptySnapshot = "<!DOCTYPE html>" ++ r)
    ∧ (∃ p, renderSnapshot emptySnapshot = p ++ "</html>\n") := by
  refine ⟨?_, ?_, ?_, ?_, ?_, ?_, by decide, ?_, ?_,
    renderStartsWithDoctype _, renderEndsWithHtml _⟩
  · exact joinMemContains _ _ (by rw [htmlChunks_empty]; simp)
  · exact joinMemContains _ _ (by rw [htmlChunks_empty]; simp)
  · exact joinMemContains _ _ (by rw [htmlChunks_empty]; simp)
  · exact joinMemContains _ _ (by rw [htmlChunks_empty]; simp)
  · exact joinMemContains _ _ (by rw [htmlChunks_empty]; simp)
  · exact joinMemContains _ _ (by rw [htmlChunks_empty]; simp)
  · rw [htmlChunks_empty]; decide
  · rw [htmlChunks_empty]; decide

/-- C10: the instance collector is total when every tag of every instance
has a `"Key"` field (and a `"Value"` field when the key is `"Name"`), and
there is a successful describe-instances response — one whose instance has
a tag `{Value: "x"}` with no `"Key"` — on which `get_instances` raises
(`none`) instead of applying a fallback. -/
theorem c10_instances_totality :
    (∀ R data, R "ec2" "describe-instances" [] = some data →
        tagsOk data = true → (get_instances R).isSome = true)
    ∧ O10bad "ec2" "describe-instances" [] =
        some (.obj [("Reservations", .arr [.obj [("Instances", .arr [o10inst])]])])
    ∧ o10inst.find? "Tags" = some (.arr [o10tag])
    ∧ o10tag.find? "Key" = none
    ∧ get_instances O10bad = none := by
  refine ⟨?_, rfl, rfl, rfl, rfl⟩
  intro R data h1 h2
  unfold get_instances
  rw [h1]
  dsimp only
  by_cases ht : pyTruthy data
  · rw [if_pos ht]
    unfold tagsOk at h2
    rw [List.all_eq_true] at h2
    have hm : ((getArr data "Reservations").mapM (fun res =>
        (getArr res "Instances").mapM mkInstance)).isSome = true := by
      apply mapM_option_isSome
      intro res hres
      apply mapM_option_isSome
      intro inst hinst
      apply mkInstance_isSome
      have h3 := h2 res hres
      rw [List.all_eq_true] at h3
      exact h3 inst hinst
    cases hmm : (getArr data "Reservations").mapM (fun res =>
        (getArr res "Instances").mapM mkInstance) with
    | none => rw [hmm] at hm; simp at hm
    | some lss => simp [Option.bind]
  · rw [if_neg ht]; rfl

/-- C10 witness: a well-tagged response on which `get_instances`
succeeds. -/
theorem c10_instances_totality_witness :
    tagsOk o10wData = true ∧ (get_instances O10w).isSome = true := by
  have h := c10_instances_totality
  exact ⟨rfl, h.1 O10w o10wData rfl rfl⟩
